import Mathlib

/-!
Verification development for the playwright-template repository.

The embedded code:
* `src/utils/test.helpers.ts` — `TestHelpers.retryOperation` (lines 9-28);
* `src/utils/api.helpers.ts` — `APIHelpers.waitForAPIResponse` (lines 127-143);
* `src/utils/reporter.ts` — `CustomReporter.onTestEnd`, `CustomReporter.onEnd`
  and `CustomReporter.generateMarkdownSummary`.

Asynchronous TS functions are embedded as pure functions: a fallible async
operation becomes `Nat → Except E A` (the value of the i-th call), a thrown
exception becomes `Except.error`, and the inter-attempt `setTimeout` delay is
a pure suspension with no observable effect, so it is dropped.  Loops are
embedded with an explicit fuel argument equal to the number of remaining
iterations.  Each loop embedding also returns the number of times the wrapped
operation was invoked, so that "invoked exactly k times" claims are statable.
-/

namespace PlaywrightTemplate

/-- Embeds `TestHelpers.retryOperation` (test.helpers.ts lines 9-28).
`i` is the loop counter, `fuel` the remaining iterations
(`maxRetries - i`), `lastError` the mutable `lastError` local
(`none` models the initial `undefined`).  Loop body: `try { return await
operation(); } catch (error) { lastError = error; ... }`; after the loop,
`throw lastError` — embedded as `Except.error lastError`, so
`Except.error none` models `throw undefined`.  The second component of the
result counts invocations of `operation`. -/
def retryGo {E A : Type} (op : Nat → Except E A) :
    Nat → Nat → Option E → Except (Option E) A × Nat
  | i, 0, lastError => (Except.error lastError, i)
  | i, fuel + 1, _ =>
    match op i with
    | Except.ok a => (Except.ok a, i + 1)
    | Except.error e => retryGo op (i + 1) fuel (some e)

/-- Embeds `TestHelpers.retryOperation(operation, maxRetries, delay)`:
`for (let i = 0; i < maxRetries; i++) { try ... catch ... } throw lastError`.
`maxRetries` is an `Int` because the TS `number` parameter may be
non-positive; the `for` loop then runs `maxRetries.toNat` times. -/
def retryOperation {E A : Type} (op : Nat → Except E A) (maxRetries : Int) :
    Except (Option E) A × Nat :=
  retryGo op 0 maxRetries.toNat none

/-- Failure outcomes of `APIHelpers.waitForAPIResponse`: either the wrapped
operation threw (uncaught — there is no try/catch in the loop), or the loop
exhausted `maxRetries` and reached
`throw new Error('API response condition not met within timeout')`. -/
inductive PollFailure (E : Type) where
  | opThrew (e : E)
  | conditionNotMet (msg : String)
deriving DecidableEq

/-- Embeds the loop of `APIHelpers.waitForAPIResponse` (api.helpers.ts
lines 133-141): `const response = await operation()` (a rejection
propagates — there is no catch), `if (condition(response)) return response`,
otherwise delay and iterate.  Counts invocations of `operation` in the
second component. -/
def pollGo {E R : Type} (op : Nat → Except E R) (cond : R → Bool) :
    Nat → Nat → Except (PollFailure E) R × Nat
  | i, 0 =>
    (Except.error (PollFailure.conditionNotMet
      "API response condition not met within timeout"), i)
  | i, fuel + 1 =>
    match op i with
    | Except.error e => (Except.error (PollFailure.opThrew e), i + 1)
    | Except.ok r =>
      if cond r then (Except.ok r, i + 1) else pollGo op cond (i + 1) fuel

/-- Embeds `APIHelpers.waitForAPIResponse(operation, condition, maxRetries,
delay)` (api.helpers.ts lines 127-143). -/
def waitForAPIResponse {E R : Type} (op : Nat → Except E R) (cond : R → Bool)
    (maxRetries : Int) : Except (PollFailure E) R × Nat :=
  pollGo op cond 0 maxRetries.toNat

/-! Embedding of `CustomReporter` (src/utils/reporter.ts).  TS statuses are
strings (a union type), so `status` is a `String` here.  File contents and
console output are built with the same concatenations as the source; the
only abstractions are (a) JS `number` arithmetic, embedded as `JSNum` below
(exact rationals plus the IEEE special values `NaN`/`Infinity`, which is
exact for every value these claims evaluate), and (b)
`new Date(...).toLocaleString()`, taken as an ambient `String → String`
parameter since locale rendering is owned by the JS runtime. -/

/-- The record built by `CustomReporter.onTestEnd` (reporter.ts lines
315-335) and pushed onto `this.results`.  Fields not read anywhere in the
reporter's own rendering code (`stdout`, `stderr`, `attachments`, `stack`,
the annotation list) are omitted.  `fullTitle` is the already-joined
`test.titlePath().join(' > ')`. -/
structure TestOutcomeRec where
  title : String
  fullTitle : String
  file : String
  line : Nat
  column : Nat
  status : String
  duration : Nat
  retry : Nat
  error : Option String
  tags : List String
deriving DecidableEq

/-- The status-to-glyph dictionary of `CustomReporter.onTestEnd`
(reporter.ts lines 339-345); note it has an entry for `interrupted`. -/
def consoleStatusIconTable : List (String × String) :=
  [("passed", "✅"), ("failed", "❌"), ("timedOut", "⏱️"),
   ("skipped", "⏭️"), ("interrupted", "🛑")]

/-- `{...}[status] || '❓'` in `onTestEnd` (reporter.ts line 345): a
dictionary lookup, falling back to the unknown glyph on a miss. -/
def consoleStatusIcon (status : String) : String :=
  (consoleStatusIconTable.lookup status).getD "❓"

/-- The status-to-glyph dictionary inside
`CustomReporter.generateMarkdownSummary` (reporter.ts lines 440-445); it has
NO entry for `interrupted`. -/
def mdStatusIconTable : List (String × String) :=
  [("passed", "✅"), ("failed", "❌"), ("timedOut", "⏱️"), ("skipped", "⏭️")]

/-- `{...}[r.status] || '❓'` in `generateMarkdownSummary` (line 445). -/
def markdownStatusIcon (status : String) : String :=
  (mdStatusIconTable.lookup status).getD "❓"

/-- The console progress line of `onTestEnd` (reporter.ts line 347):
`` `${statusIcon} ${test.title} (${duration}ms)` ``. -/
def consoleTestEndLine (r : TestOutcomeRec) : String :=
  consoleStatusIcon r.status ++ " " ++ r.title ++ " (" ++
    toString r.duration ++ "ms)"

/-- A JS `number`, restricted to the values reachable in the reporter: an
exact fraction `num / den` (with `den` kept positive by every operation
below) plus the IEEE special values.  Exact fraction arithmetic stands in
for binary64; every claim below evaluates it only at points where the two
agree (integers, and the 0/0 = NaN case). -/
inductive JSNum where
  | finite (num : Int) (den : Int)
  | posInf
  | negInf
  | nan
deriving DecidableEq

def jsOfNat (n : Nat) : JSNum := JSNum.finite n 1

/-- JS `/` on numbers: `0/0` is `NaN`, `x/0` for finite nonzero `x` is a
signed infinity, `NaN` is absorbing; finite fractions divide exactly,
keeping the denominator positive. -/
def jsDiv : JSNum → JSNum → JSNum
  | JSNum.nan, _ => JSNum.nan
  | _, JSNum.nan => JSNum.nan
  | JSNum.finite a b, JSNum.finite c d =>
    if c = 0 then
      (if a = 0 then JSNum.nan
       else if 0 < a then JSNum.posInf else JSNum.negInf)
    else if 0 < c then JSNum.finite (a * d) (b * c)
    else JSNum.finite (-(a * d)) (-(b * c))
  | JSNum.finite _ _, JSNum.posInf => JSNum.finite 0 1
  | JSNum.finite _ _, JSNum.negInf => JSNum.finite 0 1
  | JSNum.posInf, JSNum.finite c _ =>
    if 0 ≤ c then JSNum.posInf else JSNum.negInf
  | JSNum.negInf, JSNum.finite c _ =>
    if 0 ≤ c then JSNum.negInf else JSNum.posInf
  | _, _ => JSNum.nan

/-- JS `*` on numbers, on the same value space. -/
def jsMul : JSNum → JSNum → JSNum
  | JSNum.nan, _ => JSNum.nan
  | _, JSNum.nan => JSNum.nan
  | JSNum.finite a b, JSNum.finite c d => JSNum.finite (a * c) (b * d)
  | JSNum.posInf, JSNum.finite c _ =>
    if c = 0 then JSNum.nan else if 0 < c then JSNum.posInf else JSNum.negInf
  | JSNum.negInf, JSNum.finite c _ =>
    if c = 0 then JSNum.nan else if 0 < c then JSNum.negInf else JSNum.posInf
  | JSNum.finite a _, JSNum.posInf =>
    if a = 0 then JSNum.nan else if 0 < a then JSNum.posInf else JSNum.negInf
  | JSNum.finite a _, JSNum.negInf =>
    if a = 0 then JSNum.nan else if 0 < a then JSNum.negInf else JSNum.posInf
  | JSNum.posInf, JSNum.posInf => JSNum.posInf
  | JSNum.posInf, JSNum.negInf => JSNum.negInf
  | JSNum.negInf, JSNum.posInf => JSNum.negInf
  | JSNum.negInf, JSNum.negInf => JSNum.posInf

/-- Decimal rendering of the fraction `num / den` (`den` positive) with
`digits` fractional digits, rounding to nearest with ties up — i.e. the
scaled value is `⌊num * 10 ^ digits / den + 1 / 2⌋`, computed with integer
floor division — as `Number.prototype.toFixed` does on the values reached
here. -/
def fracToFixed (digits : Nat) (num den : Int) : String :=
  let p : Nat := 10 ^ digits
  let scaled : Int := Int.fdiv (2 * num * p + den) (2 * den)
  let sign := if scaled < 0 then "-" else ""
  let n := scaled.natAbs
  let frac := toString (n % p)
  sign ++ toString (n / p) ++ "." ++
    String.mk (List.replicate (digits - frac.length) '0') ++ frac

/-- `x.toFixed(digits)` for a JS number: `"NaN"` for NaN, `"Infinity"` /
`"-Infinity"` for the infinities, decimal rendering otherwise. -/
def jsToFixed (digits : Nat) : JSNum → String
  | JSNum.nan => "NaN"
  | JSNum.posInf => "Infinity"
  | JSNum.negInf => "-Infinity"
  | JSNum.finite num den => fracToFixed digits num den

/-- One percentage cell of the summary table (reporter.ts lines 414-417):
`((count / summary.totalTests) * 100).toFixed(1)`. -/
def pctCell (count total : Nat) : String :=
  jsToFixed 1 (jsMul (jsDiv (jsOfNat count) (jsOfNat total)) (jsOfNat 100))

/-- The summary object built at the top of `CustomReporter.onEnd`
(reporter.ts lines 358-369).  `startTime`/`endTime` are the ISO strings,
`duration` the elapsed milliseconds, `status` the optional overall run
status handed to `onEnd`. -/
structure RunSummaryRec where
  startTime : String
  endTime : String
  duration : Nat
  status : Option String
  totalTests : Nat
  passed : Nat
  failed : Nat
  skipped : Nat
  flaky : Nat
  results : List TestOutcomeRec

/-- Builds the summary exactly as reporter.ts lines 358-369 do: each count
is a `filter(...).length` over `this.results`; in particular
`flaky: this.results.filter(r => r.retry > 0 && r.status === 'passed').length`
— a per-outcome count, with no grouping by title. -/
def mkRunSummary (startTime endTime : String) (duration : Nat)
    (status : Option String) (results : List TestOutcomeRec) : RunSummaryRec :=
  { startTime := startTime
    endTime := endTime
    duration := duration
    status := status
    totalTests := results.length
    passed := (results.filter (fun r => r.status == "passed")).length
    failed := (results.filter (fun r => r.status == "failed")).length
    skipped := (results.filter (fun r => r.status == "skipped")).length
    flaky := (results.filter
      (fun r => decide (0 < r.retry) && (r.status == "passed"))).length
    results := results }

/-- Modelled from the spec: the grouping-based flaky count the spec
describes in section 4.1 ("`flakyCount` requires grouping outcomes by
`fullTitlePath` first — any group whose maximum `retryIndex` is > 0 and
whose outcome at that maximum index has status passed increments
`flakyCount`").  Stated per the spec's words, for comparison with the
`flaky` field computed by `mkRunSummary` from the source. -/
def specFlakyCount (results : List TestOutcomeRec) : Nat :=
  ((results.map (fun r => r.fullTitle)).dedup).countP (fun t =>
    let group := results.filter (fun r => r.fullTitle == t)
    let m : Nat := (group.map (fun r => r.retry)).foldr max 0
    decide (0 < m) && group.any (fun r => r.retry == m && r.status == "passed"))

/-- `summary.status || 'completed'` (reporter.ts line 409): JS `||`
falls through on `undefined` and on the empty string. -/
def statusOrCompleted : Option String → String
  | some s => if s == "" then "completed" else s
  | none => "completed"

/-- Rendering of a possibly-undefined string inside a template literal:
`undefined` prints as `"undefined"`. -/
def jsShowOpt : Option String → String
  | some s => s
  | none => "undefined"

/-- `r.tags.join(', ') || '-'` (reporter.ts line 447): the joined tag list,
or `-` when the join is the (falsy) empty string. -/
def joinTagsOrDash (tags : List String) : String :=
  let t := String.intercalate ", " tags
  if t == "" then "-" else t

/-- One row of the collapsible full-results table (reporter.ts lines
439-448), glyph included. -/
def mdDetailRow (r : TestOutcomeRec) : String :=
  "| " ++ r.title ++ " | " ++ markdownStatusIcon r.status ++ " | " ++
    toString r.duration ++ "ms | " ++ joinTagsOrDash r.tags ++ " |\n"

/-- The per-failure blocks of the "Failed Tests" section (reporter.ts lines
421-431). -/
def mdFailedSection (results : List TestOutcomeRec) : String :=
  String.join ((results.filter (fun r => r.status == "failed")).map (fun r =>
    "### ❌ " ++ r.title ++ "\n" ++
    "- **File**: " ++ r.file ++ ":" ++ toString r.line ++ "\n" ++
    "- **Error**: " ++ jsShowOpt r.error ++ "\n" ++
    (if 0 < r.tags.length then
      "- **Tags**: " ++ String.intercalate ", " r.tags ++ "\n"
     else "") ++
    "\n"))

/-- The "## Summary" block with the four percentage rows (reporter.ts lines
411-417). -/
def mdSummaryTable (summary : RunSummaryRec) : String :=
  "## Summary\n\n" ++
  "| Status | Count | Percentage |\n" ++
  "|--------|-------|------------|\n" ++
  "| ✅ Passed | " ++ toString summary.passed ++ " | " ++
    pctCell summary.passed summary.totalTests ++ "% |\n" ++
  "| ❌ Failed | " ++ toString summary.failed ++ " | " ++
    pctCell summary.failed summary.totalTests ++ "% |\n" ++
  "| ⏭️ Skipped | " ++ toString summary.skipped ++ " | " ++
    pctCell summary.skipped summary.totalTests ++ "% |\n" ++
  "| 🔄 Flaky | " ++ toString summary.flaky ++ " | " ++
    pctCell summary.flaky summary.totalTests ++ "% |\n"

/-- Embeds `CustomReporter.generateMarkdownSummary(summary)` (reporter.ts
lines 405-453), concatenating exactly the pieces the `md +=` statements do.
`toLocale` stands for `s => new Date(s).toLocaleString()`. -/
def generateMarkdownSummary (toLocale : String → String)
    (summary : RunSummaryRec) : String :=
  "# Test Run Report\n\n" ++
  "**Date**: " ++ toLocale summary.startTime ++ "\n" ++
  "**Duration**: " ++
    jsToFixed 2 (jsDiv (jsOfNat summary.duration) (jsOfNat 1000)) ++ "s\n" ++
  "**Status**: " ++ statusOrCompleted summary.status ++ "\n\n" ++
  mdSummaryTable summary ++
  (if 0 < summary.failed then
    "\n## Failed Tests\n\n" ++ mdFailedSection summary.results
   else "") ++
  "\n## Test Details\n\n" ++
  "<details>\n<summary>Click to expand full test results</summary>\n\n" ++
  "| Test | Status | Duration | Tags |\n" ++
  "|------|--------|----------|------|\n" ++
  String.join (summary.results.map mdDetailRow) ++
  "\n</details>\n"

/-- `'='.repeat(50)` (reporter.ts lines 382-391). -/
def eqLine : String := String.mk (List.replicate 50 '=')

/-- The per-failure console lines of `onEnd` (reporter.ts lines 393-402). -/
def consoleFailedLines (results : List TestOutcomeRec) : List String :=
  ((results.filter (fun r => r.status == "failed")).map (fun r =>
    ["  ❌ " ++ r.fullTitle,
     "     " ++ jsShowOpt r.error,
     "     at " ++ r.file ++ ":" ++ toString r.line])).flatten

/-- The bordered console summary block of `onEnd` (reporter.ts lines
382-402), one list entry per `console.log` call. -/
def consoleSummaryLines (summary : RunSummaryRec) : List String :=
  ["\n" ++ eqLine,
   "Test Run Summary",
   eqLine,
   "Total Tests: " ++ toString summary.totalTests,
   "✅ Passed: " ++ toString summary.passed,
   "❌ Failed: " ++ toString summary.failed,
   "⏭️  Skipped: " ++ toString summary.skipped,
   "🔄 Flaky: " ++ toString summary.flaky,
   "⏱️  Duration: " ++
     jsToFixed 2 (jsDiv (jsOfNat summary.duration) (jsOfNat 1000)) ++ "s",
   eqLine] ++
  (if 0 < summary.failed then
    ["\nFailed Tests:"] ++ consoleFailedLines summary.results
   else [])

/-- The outcomes of the three awaited filesystem calls in `onEnd`
(reporter.ts lines 373, 374 and 379): `fs.promises.mkdir`, the
`custom-report.json` write and the `summary.md` write.  `Except.error msg`
models the promise rejecting with that error. -/
structure FsBehavior where
  mkdirReports : Except String Unit
  writeCustomReportJson : Except String Unit
  writeSummaryMd : Except String Unit

/-- What an `onEnd` invocation observably did: the `console.log` lines it
printed, the exception (if any) that escaped it — `onEnd` contains no
try/catch, so a rejected `await` aborts the method at that point — and
which artifact writes completed. -/
structure OnEndOutput where
  consoleLines : List String
  thrown : Option String
  wroteJson : Bool
  wroteMd : Bool
deriving DecidableEq

/-- Embeds `CustomReporter.onEnd` (reporter.ts lines 354-403) given the
accumulated `this.results`, the run status, the clock readings, and the
behavior of the three filesystem calls.  Statement order is the source's:
build `summary`; `await mkdir`; `await writeFile(custom-report.json)`;
compute the markdown; `await writeFile(summary.md)`; then the console
summary.  A rejection at any `await` escapes immediately (nothing is
caught), so no console line is printed in that case. -/
def onEnd (startTime endTime : String) (duration : Nat)
    (status : Option String) (results : List TestOutcomeRec)
    (fsEnv : FsBehavior) : OnEndOutput :=
  let summary := mkRunSummary startTime endTime duration status results
  match fsEnv.mkdirReports with
  | Except.error e =>
    { consoleLines := [], thrown := some e, wroteJson := false, wroteMd := false }
  | Except.ok _ =>
    match fsEnv.writeCustomReportJson with
    | Except.error e =>
      { consoleLines := [], thrown := some e, wroteJson := false, wroteMd := false }
    | Except.ok _ =>
      match fsEnv.writeSummaryMd with
      | Except.error e =>
        { consoleLines := [], thrown := some e, wroteJson := true, wroteMd := false }
      | Except.ok _ =>
        { consoleLines := consoleSummaryLines summary, thrown := none,
          wroteJson := true, wroteMd := true }

/-- `pat` occurs as a contiguous substring of `s` (on the character
lists). -/
def strHasSub (s pat : String) : Bool :=
  (List.range (s.length + 1)).any
    (fun i => (s.toList.drop i).take pat.length == pat.toList)

/-! Lemmas about the retry loop. -/

theorem retryGo_all_fail {E A : Type} (op : Nat → Except E A) (errs : Nat → E) :
    ∀ (fuel i : Nat) (lastError : Option E), 0 < fuel →
      (∀ j, i ≤ j → j < i + fuel → op j = Except.error (errs j)) →
      retryGo op i fuel lastError =
        (Except.error (some (errs (i + fuel - 1))), i + fuel) := by
  intro fuel
  induction fuel with
  | zero => intro i lastError h; exact absurd h (lt_irrefl 0)
  | succ f ih =>
    intro i lastError _ hf
    have h1 : op i = Except.error (errs i) := hf i le_rfl (by omega)
    rcases Nat.eq_zero_or_pos f with hf0 | hfpos
    · subst hf0
      simp [retryGo, h1]
    · have step := ih (i + 1) (some (errs i)) hfpos
        (fun j hj1 hj2 => hf j (by omega) (by omega))
      simp only [retryGo, h1]
      rw [step]
      have e1 : i + 1 + f - 1 = i + (f + 1) - 1 := by omega
      have e2 : i + 1 + f = i + (f + 1) := by omega
      rw [e1, e2]

theorem retryGo_first_success {E A : Type} (op : Nat → Except E A) (v : A) :
    ∀ (m : Nat), ∀ (fuel i : Nat) (lastError : Option E), m < fuel →
      (∀ j, j < m → ∃ e, op (i + j) = Except.error e) →
      op (i + m) = Except.ok v →
      retryGo op i fuel lastError = (Except.ok v, i + m + 1) := by
  intro m
  induction m with
  | zero =>
    intro fuel i lastError hlt hj hok
    obtain ⟨f, rfl⟩ : ∃ f, fuel = f + 1 := ⟨fuel - 1, by omega⟩
    rw [Nat.add_zero] at hok
    simp [retryGo, hok]
  | succ m ih =>
    intro fuel i lastError hlt hj hok
    obtain ⟨f, rfl⟩ : ∃ f, fuel = f + 1 := ⟨fuel - 1, by omega⟩
    obtain ⟨e, he⟩ := hj 0 (Nat.succ_pos m)
    rw [Nat.add_zero] at he
    have step := ih f (i + 1) (some e) (by omega)
      (fun j hjm => by
        obtain ⟨e2, he2⟩ := hj (j + 1) (by omega)
        exact ⟨e2, by rw [show i + 1 + j = i + (j + 1) by omega]; exact he2⟩)
      (by rw [show i + 1 + m = i + (m + 1) by omega]; exact hok)
    simp only [retryGo, he]
    rw [step]
    have e1 : i + 1 + m + 1 = i + (m + 1) + 1 := by omega
    rw [e1]

/-- C4: if the operation throws on every one of its `maxAttempts` attempts,
`retryOperation` propagates the error from the last attempt (index
`maxAttempts - 1`), not the first, after invoking the operation exactly
`maxAttempts` times. -/
theorem retryOperation_propagates_last_error {E A : Type}
    (op : Nat → Except E A) (errs : Nat → E) (maxAttempts : Nat)
    (hpos : 0 < maxAttempts)
    (hfail : ∀ i, i < maxAttempts → op i = Except.error (errs i)) :
    retryOperation op (maxAttempts : Int) =
      (Except.error (some (errs (maxAttempts - 1))), maxAttempts) := by
  unfold retryOperation
  rw [Int.toNat_natCast]
  have h := retryGo_all_fail op errs maxAttempts 0 none hpos
    (fun j h1 h2 => hfail j (by omega))
  simpa using h

/-- C4 witness: with an always-failing operation and `maxAttempts = 3`, the
error of the third call (index 2) is propagated. -/
theorem retryOperation_propagates_last_error_witness :
    retryOperation (fun i => (Except.error i : Except Nat Nat)) ((3 : Nat) : Int) =
      (Except.error (some 2), 3) :=
  retryOperation_propagates_last_error (fun i => Except.error i) (fun i => i) 3
    (by decide) (fun i _ => rfl)

/-- C5: if the operation throws on its first `k - 1` invocations and
succeeds on invocation `k`, with `k ≤ maxAttempts`, `retryOperation` returns
that success value and invokes the operation exactly `k` times. -/
theorem retryOperation_returns_first_success {E A : Type}
    (op : Nat → Except E A) (v : A) (k maxAttempts : Nat)
    (hk : 0 < k) (hle : k ≤ maxAttempts)
    (hfail : ∀ i, i < k - 1 → ∃ e, op i = Except.error e)
    (hsucc : op (k - 1) = Except.ok v) :
    retryOperation op (maxAttempts : Int) = (Except.ok v, k) := by
  unfold retryOperation
  rw [Int.toNat_natCast]
  have h := retryGo_first_success op v (k - 1) maxAttempts 0 none (by omega)
    (fun j hj => by simpa using hfail j hj) (by simpa using hsucc)
  rw [h]
  have : 0 + (k - 1) + 1 = k := by omega
  rw [this]

/-- C5 witness: an operation failing on calls 1 and 2 and succeeding on
call 3 under `maxAttempts = 3` returns the success value with exactly 3
invocations. -/
theorem retryOperation_returns_first_success_witness :
    retryOperation
      (fun i => if i == 2 then Except.ok 42 else (Except.error (toString i) : Except String Nat))
      ((3 : Nat) : Int) = (Except.ok 42, 3) :=
  retryOperation_returns_first_success
    (fun i => if i == 2 then Except.ok 42 else Except.error (toString i))
    42 3 3 (by decide) (le_refl 3)
    (fun i hi => ⟨toString i, by
      have hne : (i == 2) = false := by
        simp only [beq_eq_false_iff_ne]; omega
      simp [hne]⟩)
    rfl

/-! Lemmas about the poll loop. -/

theorem pollGo_first_success {E R : Type} (op : Nat → Except E R)
    (cond : R → Bool) (res : Nat → R) :
    ∀ (m : Nat), ∀ (fuel i : Nat), m < fuel →
      (∀ j, j ≤ m → op (i + j) = Except.ok (res (i + j))) →
      (∀ j, j < m → cond (res (i + j)) = false) →
      cond (res (i + m)) = true →
      pollGo op cond i fuel = (Except.ok (res (i + m)), i + m + 1) := by
  intro m
  induction m with
  | zero =>
    intro fuel i hlt hok hfalse htrue
    obtain ⟨f, rfl⟩ : ∃ f, fuel = f + 1 := ⟨fuel - 1, by omega⟩
    have h0 := hok 0 le_rfl
    rw [Nat.add_zero] at h0 htrue
    simp [pollGo, h0, htrue]
  | succ m ih =>
    intro fuel i hlt hok hfalse htrue
    obtain ⟨f, rfl⟩ : ∃ f, fuel = f + 1 := ⟨fuel - 1, by omega⟩
    have h0 := hok 0 (Nat.zero_le _)
    rw [Nat.add_zero] at h0
    have hc0 := hfalse 0 (Nat.succ_pos m)
    rw [Nat.add_zero] at hc0
    have step := ih f (i + 1) (by omega)
      (fun j hj => by
        rw [show i + 1 + j = i + (j + 1) by omega]
        exact hok (j + 1) (by omega))
      (fun j hj => by
        rw [show i + 1 + j = i + (j + 1) by omega]
        exact hfalse (j + 1) (by omega))
      (by rw [show i + 1 + m = i + (m + 1) by omega]; exact htrue)
    simp only [pollGo, h0, hc0]
    rw [if_neg (by simp), step]
    have e1 : i + 1 + m = i + (m + 1) := by omega
    rw [e1]

theorem pollGo_throw {E R : Type} (op : Nat → Except E R)
    (cond : R → Bool) (res : Nat → R) (e : E) :
    ∀ (m : Nat), ∀ (fuel i : Nat), m < fuel →
      (∀ j, j < m → op (i + j) = Except.ok (res (i + j)) ∧
        cond (res (i + j)) = false) →
      op (i + m) = Except.error e →
      pollGo op cond i fuel = (Except.error (PollFailure.opThrew e), i + m + 1) := by
  intro m
  induction m with
  | zero =>
    intro fuel i hlt hpre hthrow
    obtain ⟨f, rfl⟩ : ∃ f, fuel = f + 1 := ⟨fuel - 1, by omega⟩
    rw [Nat.add_zero] at hthrow
    simp [pollGo, hthrow]
  | succ m ih =>
    intro fuel i hlt hpre hthrow
    obtain ⟨f, rfl⟩ : ∃ f, fuel = f + 1 := ⟨fuel - 1, by omega⟩
    obtain ⟨h0, hc0⟩ := hpre 0 (Nat.succ_pos m)
    rw [Nat.add_zero] at h0 hc0
    have step := ih f (i + 1) (by omega)
      (fun j hj => by
        rw [show i + 1 + j = i + (j + 1) by omega]
        exact hpre (j + 1) (by omega))
      (by rw [show i + 1 + m = i + (m + 1) by omega]; exact hthrow)
    simp only [pollGo, h0, hc0]
    rw [if_neg (by simp), step]
    have e1 : i + 1 + m = i + (m + 1) := by omega
    rw [e1]

theorem pollGo_exhaust {E R : Type} (op : Nat → Except E R)
    (cond : R → Bool) (res : Nat → R) :
    ∀ (fuel i : Nat),
      (∀ j, j < fuel → op (i + j) = Except.ok (res (i + j)) ∧
        cond (res (i + j)) = false) →
      pollGo op cond i fuel =
        (Except.error (PollFailure.conditionNotMet
          "API response condition not met within timeout"), i + fuel) := by
  intro fuel
  induction fuel with
  | zero => intro i _; simp [pollGo]
  | succ f ih =>
    intro i hall
    obtain ⟨h0, hc0⟩ := hall 0 (Nat.succ_pos f)
    rw [Nat.add_zero] at h0 hc0
    have step := ih (i + 1)
      (fun j hj => by
        rw [show i + 1 + j = i + (j + 1) by omega]
        exact hall (j + 1) (by omega))
    simp only [pollGo, h0, hc0]
    rw [if_neg (by simp), step]
    have e1 : i + 1 + f = i + (f + 1) := by omega
    rw [e1]

/-- C6: if every attempt up to `k` returns a response and the condition
first holds on the `k`-th response, with `k ≤ maxAttempts`,
`waitForAPIResponse` returns that `k`-th response and invokes the
operation exactly `k` times. -/
theorem waitForAPIResponse_returns_first_satisfying {E R : Type}
    (op : Nat → Except E R) (cond : R → Bool) (res : Nat → R)
    (k maxAttempts : Nat) (hk : 0 < k) (hle : k ≤ maxAttempts)
    (hok : ∀ i, i < k → op i = Except.ok (res i))
    (hfalse : ∀ i, i < k - 1 → cond (res i) = false)
    (htrue : cond (res (k - 1)) = true) :
    waitForAPIResponse op cond (maxAttempts : Int) = (Except.ok (res (k - 1)), k) := by
  unfold waitForAPIResponse
  rw [Int.toNat_natCast]
  have h := pollGo_first_success op cond res (k - 1) maxAttempts 0 (by omega)
    (fun j hj => by simpa using hok j (by omega))
    (fun j hj => by simpa using hfalse j hj)
    (by simpa using htrue)
  rw [h]
  have e1 : 0 + (k - 1) = k - 1 := by omega
  rw [e1]
  rw [show k - 1 + 1 = k from by omega]

/-- C6 witness: responses 0,1,2,3 with condition `r == 3`, `maxAttempts = 5`:
the 4th response is returned after exactly 4 invocations. -/
theorem waitForAPIResponse_returns_first_satisfying_witness :
    waitForAPIResponse (fun i => (Except.ok i : Except String Nat))
      (fun r => r == 3) ((5 : Nat) : Int) = (Except.ok 3, 4) :=
  waitForAPIResponse_returns_first_satisfying (fun i => Except.ok i)
    (fun r => r == 3) (fun i => i) 4 5 (by decide) (by decide)
    (fun i _ => rfl)
    (fun i hi => by
      simp only [beq_eq_false_iff_ne]; omega)
    rfl

/-- C7: an exception thrown by the operation on attempt `j` is not caught
by `waitForAPIResponse`: it propagates as the poll's failure and the
operation is invoked exactly `j` times — never again afterwards. -/
theorem waitForAPIResponse_exception_propagates {E R : Type}
    (op : Nat → Except E R) (cond : R → Bool) (res : Nat → R) (e : E)
    (j maxAttempts : Nat) (hj : 0 < j) (hle : j ≤ maxAttempts)
    (hpre : ∀ i, i < j - 1 → op i = Except.ok (res i) ∧ cond (res i) = false)
    (hthrow : op (j - 1) = Except.error e) :
    waitForAPIResponse op cond (maxAttempts : Int) =
      (Except.error (PollFailure.opThrew e), j) := by
  unfold waitForAPIResponse
  rw [Int.toNat_natCast]
  have h := pollGo_throw op cond res e (j - 1) maxAttempts 0 (by omega)
    (fun i hi => by simpa using hpre i hi)
    (by simpa using hthrow)
  rw [h]
  have e1 : 0 + (j - 1) + 1 = j := by omega
  rw [e1]

/-- C7 witness: the operation succeeds (condition false) on attempt 1 and
throws on attempt 2 under `maxAttempts = 3`: the error propagates and the
operation is invoked exactly twice, not a third time. -/
theorem waitForAPIResponse_exception_propagates_witness :
    waitForAPIResponse
      (fun i => if i == 1 then Except.error "boom" else (Except.ok i : Except String Nat))
      (fun _ => false) ((3 : Nat) : Int) =
      (Except.error (PollFailure.opThrew "boom"), 2) :=
  waitForAPIResponse_exception_propagates
    (fun i => if i == 1 then Except.error "boom" else Except.ok i)
    (fun _ => false) (fun i => i) "boom" 2 3 (by decide) (by decide)
    (fun i hi => by interval_cases i; exact ⟨rfl, rfl⟩)
    rfl

/-- C8: when no attempt within the budget satisfies the condition,
`waitForAPIResponse` fails with the generic
`'API response condition not met within timeout'` error — a value that
carries no response, so the last result is discarded, not returned — after
exactly `maxAttempts` invocations. -/
theorem waitForAPIResponse_exhausts_conditionNotMet {E R : Type}
    (op : Nat → Except E R) (cond : R → Bool) (res : Nat → R)
    (maxAttempts : Nat)
    (hall : ∀ i, i < maxAttempts →
      op i = Except.ok (res i) ∧ cond (res i) = false) :
    waitForAPIResponse op cond (maxAttempts : Int) =
      (Except.error (PollFailure.conditionNotMet
        "API response condition not met within timeout"), maxAttempts) := by
  unfold waitForAPIResponse
  rw [Int.toNat_natCast]
  have h := pollGo_exhaust op cond res maxAttempts 0
    (fun j hj => by simpa using hall j hj)
  simpa using h

/-- C8 witness: a never-satisfied condition over `maxAttempts = 2` yields
the generic condition-not-met error after exactly 2 invocations. -/
theorem waitForAPIResponse_exhausts_conditionNotMet_witness :
    waitForAPIResponse (fun i => (Except.ok i : Except String Nat))
      (fun _ => false) ((2 : Nat) : Int) =
      (Except.error (PollFailure.conditionNotMet
        "API response condition not met within timeout"), 2) :=
  waitForAPIResponse_exhausts_conditionNotMet (fun i => Except.ok i)
    (fun _ => false) (fun i => i) 2 (fun _ _ => ⟨rfl, rfl⟩)

/-- C9 counterexample: with `maxAttempts = 0` neither helper raises a
configuration-class error before invoking the operation.  `retryOperation`
reaches `throw lastError` with `lastError` still `undefined` (modelled
`Except.error none` — no error object at all), and `waitForAPIResponse`
throws exactly the same generic condition-not-met timeout error it uses for
predicate exhaustion (shown equal to the exhaustion error of a
`maxAttempts = 1`, condition-false poll), not a distinct configuration
error. -/
theorem maxAttempts_zero_counterexample :
    retryOperation (fun i => (Except.ok i : Except String Nat)) 0 =
      (Except.error none, 0) ∧
    waitForAPIResponse (fun i => (Except.ok i : Except String Nat))
      (fun _ => true) 0 =
      (Except.error (PollFailure.conditionNotMet
        "API response condition not met within timeout"), 0) ∧
    (waitForAPIResponse (fun i => (Except.ok i : Except String Nat))
      (fun _ => true) 0).fst =
    (waitForAPIResponse (fun i => (Except.ok i : Except String Nat))
      (fun _ => false) 1).fst :=
  ⟨rfl, rfl, rfl⟩

/-- C9 amended: for every `maxAttempts ≤ 0`, neither helper invokes the
operation (invocation count 0), but neither fails fast with a
configuration-class error either: `retryOperation` throws the undefined
`lastError` and `waitForAPIResponse` throws its generic condition-not-met
timeout error. -/
theorem maxAttempts_nonpositive_behavior {E A R : Type}
    (op : Nat → Except E A) (op2 : Nat → Except E R) (cond : R → Bool)
    (maxAttempts : Int) (h : maxAttempts ≤ 0) :
    retryOperation op maxAttempts = (Except.error none, 0) ∧
    waitForAPIResponse op2 cond maxAttempts =
      (Except.error (PollFailure.conditionNotMet
        "API response condition not met within timeout"), 0) := by
  have h0 : maxAttempts.toNat = 0 := Int.toNat_eq_zero.mpr h
  constructor
  · unfold retryOperation
    rw [h0]
    simp [retryGo]
  · unfold waitForAPIResponse
    rw [h0]
    simp [pollGo]

/-- C9 amended witness: at `maxAttempts = -1`. -/
theorem maxAttempts_nonpositive_behavior_witness :
    retryOperation (fun i => (Except.ok i : Except String Nat)) (-1) =
      (Except.error none, 0) ∧
    waitForAPIResponse (fun i => (Except.ok i : Except String Nat))
      (fun _ => true) (-1) =
      (Except.error (PollFailure.conditionNotMet
        "API response condition not met within timeout"), 0) :=
  maxAttempts_nonpositive_behavior (fun i => Except.ok i)
    (fun i => Except.ok i) (fun _ => true) (-1) (by decide)

/-! Theorems about the reporter. -/

/-- The two-outcome flaky example from the spec: test `A` failed on its
first attempt and passed on its retry. -/
def flakyExampleA : List TestOutcomeRec :=
  [{ title := "t", fullTitle := "A", file := "f.ts", line := 1, column := 1,
     status := "failed", duration := 5, retry := 0, error := some "boom",
     tags := [] },
   { title := "t", fullTitle := "A", file := "f.ts", line := 1, column := 1,
     status := "passed", duration := 5, retry := 1, error := none,
     tags := [] }]

/-- The single-outcome flaky example from the spec: test `B` passed on its
first attempt. -/
def flakyExampleB : List TestOutcomeRec :=
  [{ title := "t", fullTitle := "B", file := "f.ts", line := 2, column := 1,
     status := "passed", duration := 5, retry := 0, error := none,
     tags := [] }]

/-- A sequence on which the per-outcome count of the source and the
grouping-based count of the spec disagree: test `A` passed on retry 1 and
failed on retry 2, so its maximal retry index carries status failed. -/
def flakyDisagree : List TestOutcomeRec :=
  [{ title := "t", fullTitle := "A", file := "f.ts", line := 1, column := 1,
     status := "passed", duration := 5, retry := 1, error := none,
     tags := [] },
   { title := "t", fullTitle := "A", file := "f.ts", line := 1, column := 1,
     status := "failed", duration := 5, retry := 2, error := some "boom",
     tags := [] }]

/-- C2 counterexample: on the recorded outcomes `flakyDisagree` (group `A`
with maximum retry index 2 whose outcome is failed), the reporter's flaky
count is 1 — the retry-1 passed outcome is counted individually — while the
claim's grouping-based formula yields 0, so the two are not equal on every
finalized sequence of recorded outcomes. -/
theorem flakyCount_grouping_counterexample :
    (mkRunSummary "s" "e" 0 none flakyDisagree).flaky = 1 ∧
    specFlakyCount flakyDisagree = 0 ∧
    (mkRunSummary "s" "e" 0 none flakyDisagree).flaky ≠
      specFlakyCount flakyDisagree := by
  refine ⟨rfl, rfl, by decide⟩

/-- C2 amended: the reporter's flaky count is the number of individual
recorded outcomes whose `retry` is positive and whose status is passed —
no grouping by `fullTitlePath` is performed.  On the spec's two examples
this yields the claimed values 1 and 0, and there the grouping-based
formula agrees. -/
theorem flakyCount_counts_individual_outcomes (startT endT : String)
    (dur : Nat) (status : Option String) (results : List TestOutcomeRec) :
    (mkRunSummary startT endT dur status results).flaky =
      results.countP (fun r => decide (0 < r.retry) && (r.status == "passed")) ∧
    (mkRunSummary startT endT dur status flakyExampleA).flaky = 1 ∧
    (mkRunSummary startT endT dur status flakyExampleB).flaky = 0 ∧
    specFlakyCount flakyExampleA = 1 ∧
    specFlakyCount flakyExampleB = 0 :=
  ⟨(List.countP_eq_length_filter _ _).symm, rfl, rfl, rfl, rfl⟩

set_option maxRecDepth 200000 in
/-- C3 counterexample: with `totalTests == 0` the percentage cell
`((0 / 0) * 100).toFixed(1)` renders `"NaN"` (JS `0 / 0` is `NaN`), and the
rendered Markdown summary of an empty run does contain `NaN` — there is no
guard rendering `"N/A"` or `0%`. -/
theorem markdown_renders_nan_counterexample :
    pctCell 0 0 = "NaN" ∧
    strHasSub
      (generateMarkdownSummary (fun s => s)
        (mkRunSummary "2024-01-01T00:00:00Z" "2024-01-01T00:00:00Z" 0
          (some "passed") [])) "NaN" = true ∧
    strHasSub
      (generateMarkdownSummary (fun s => s)
        (mkRunSummary "2024-01-01T00:00:00Z" "2024-01-01T00:00:00Z" 0
          (some "passed") [])) "N/A" = false := by
  refine ⟨rfl, by decide, by decide⟩

set_option maxRecDepth 4000 in
/-- C3 amended: with zero recorded outcomes, summary generation does not
throw (the embedding is a total function of the summary), but every
percentage cell of the Markdown summary table renders `NaN`, not `"N/A"`
or `0%`. -/
theorem markdown_zero_tests_renders_nan (startT endT : String) (dur : Nat)
    (status : Option String) :
    mdSummaryTable (mkRunSummary startT endT dur status []) =
      "## Summary\n\n" ++
      "| Status | Count | Percentage |\n" ++
      "|--------|-------|------------|\n" ++
      "| ✅ Passed | " ++ "0" ++ " | " ++ "NaN" ++ "% |\n" ++
      "| ❌ Failed | " ++ "0" ++ " | " ++ "NaN" ++ "% |\n" ++
      "| ⏭️ Skipped | " ++ "0" ++ " | " ++ "NaN" ++ "% |\n" ++
      "| 🔄 Flaky | " ++ "0" ++ " | " ++ "NaN" ++ "% |\n" := by
  have hp : (mkRunSummary startT endT dur status []).passed = 0 := rfl
  have hf : (mkRunSummary startT endT dur status []).failed = 0 := rfl
  have hs : (mkRunSummary startT endT dur status []).skipped = 0 := rfl
  have hfl : (mkRunSummary startT endT dur status []).flaky = 0 := rfl
  have ht : (mkRunSummary startT endT dur status []).totalTests = 0 := rfl
  simp only [mdSummaryTable, hp, hf, hs, hfl, ht]
  decide

/-- A filesystem behavior where the `custom-report.json` write rejects. -/
def fsJsonWriteFails : FsBehavior :=
  { mkdirReports := Except.ok ()
    writeCustomReportJson := Except.error "EACCES: permission denied"
    writeSummaryMd := Except.ok () }

/-- A filesystem behavior where the `summary.md` write rejects. -/
def fsMdWriteFails : FsBehavior :=
  { mkdirReports := Except.ok ()
    writeCustomReportJson := Except.ok ()
    writeSummaryMd := Except.error "ENOSPC: no space left on device" }

/-- C1 counterexample: when the `custom-report.json` write fails, `onEnd`
does not catch the failure — the exception escapes (`thrown` is the write
error) and not a single console line is printed, so the bordered console
summary (the `Test Run Summary` block) is suppressed. -/
theorem onEnd_write_failure_counterexample :
    (onEnd "s" "e" 1000 (some "passed") [] fsJsonWriteFails).thrown =
      some "EACCES: permission denied" ∧
    (onEnd "s" "e" 1000 (some "passed") [] fsJsonWriteFails).consoleLines = [] ∧
    "Test Run Summary" ∉
      (onEnd "s" "e" 1000 (some "passed") [] fsJsonWriteFails).consoleLines := by
    refine ⟨rfl, rfl, by decide⟩

/-- C1 amended: a failure of either artifact write in `onEnd` is NOT
caught: the exception propagates out of `onEnd` and the bordered console
summary is not printed (no console line at all is emitted), for every run
state. -/
theorem onEnd_write_failure_uncaught (startT endT : String) (dur : Nat)
    (status : Option String) (results : List TestOutcomeRec)
    (fsEnv : FsBehavior) (e : String)
    (h : (fsEnv.mkdirReports = Except.ok () ∧
          fsEnv.writeCustomReportJson = Except.error e) ∨
         (fsEnv.mkdirReports = Except.ok () ∧
          fsEnv.writeCustomReportJson = Except.ok () ∧
          fsEnv.writeSummaryMd = Except.error e)) :
    (onEnd startT endT dur status results fsEnv).consoleLines = [] ∧
    (onEnd startT endT dur status results fsEnv).thrown = some e := by
  rcases h with ⟨h1, h2⟩ | ⟨h1, h2, h3⟩ <;>
    simp [onEnd, h1, h2, *]

/-- C1 amended witness: a failing `summary.md` write on an empty run. -/
theorem onEnd_write_failure_uncaught_witness :
    (onEnd "s" "e" 1000 (some "passed") [] fsMdWriteFails).consoleLines = [] ∧
    (onEnd "s" "e" 1000 (some "passed") [] fsMdWriteFails).thrown =
      some "ENOSPC: no space left on device" :=
  onEnd_write_failure_uncaught "s" "e" 1000 (some "passed") [] fsMdWriteFails
    "ENOSPC: no space left on device" (Or.inr ⟨rfl, rfl, rfl⟩)

/-- C10: for an outcome with status `interrupted`, the Markdown glyph
table has no entry, so the collapsible full-results table renders the
unknown-status glyph `❓` for it, while the console progress line of
`onTestEnd` renders `🛑` for the same outcome. -/
theorem interrupted_renders_unknown_glyph (r : TestOutcomeRec)
    (h : r.status = "interrupted") :
    markdownStatusIcon r.status = "❓" ∧
    mdDetailRow r = "| " ++ r.title ++ " | " ++ "❓" ++ " | " ++
      toString r.duration ++ "ms | " ++ joinTagsOrDash r.tags ++ " |\n" ∧
    consoleStatusIcon r.status = "🛑" ∧
    consoleTestEndLine r = "🛑" ++ " " ++ r.title ++ " (" ++
      toString r.duration ++ "ms)" := by
  refine ⟨by rw [h]; rfl, ?_, by rw [h]; rfl, ?_⟩
  · simp only [mdDetailRow, h]
    rfl
  · simp only [consoleTestEndLine, h]
    rfl

/-- A concrete interrupted outcome. -/
def exInterrupted : TestOutcomeRec :=
  { title := "ctrl-c", fullTitle := "Suite > ctrl-c", file := "a.spec.ts",
    line := 3, column := 2, status := "interrupted", duration := 12,
    retry := 0, error := none, tags := [] }

/-- C10 witness: the glyph asymmetry at a concrete interrupted outcome. -/
theorem interrupted_renders_unknown_glyph_witness :
    markdownStatusIcon exInterrupted.status = "❓" ∧
    mdDetailRow exInterrupted = "| " ++ exInterrupted.title ++ " | " ++ "❓" ++
      " | " ++ toString exInterrupted.duration ++ "ms | " ++
      joinTagsOrDash exInterrupted.tags ++ " |\n" ∧
    consoleStatusIcon exInterrupted.status = "🛑" ∧
    consoleTestEndLine exInterrupted = "🛑" ++ " " ++ exInterrupted.title ++
      " (" ++ toString exInterrupted.duration ++ "ms)" :=
  interrupted_renders_unknown_glyph exInterrupted rfl

end PlaywrightTemplate
